import Mathlib

/-!
Verification of the typing-test engine of this repository.

The source files modelled here are `typing_test_gui.py` (the PyQt session
engine: live-correction input handler, sentence mode, timed mode, mode
switching, time-limit configuration, round records) and
`terminal_typing_test.py` / `index.py` (the line-based surfaces: WPM and
accuracy formulas).

Modelling conventions:
* Python strings are `List Char`; text events carry the new buffer contents.
* Python floats (`time.time()` values, WPM, chars/sec) are modelled with `ℚ`.
* The widget/label state that feeds back into engine data (the WPM label,
  whose text is parsed back with `float(...)` at round completion) is kept in
  the state as the rational value it displays; `round1` models the
  one-decimal format-to-text step followed by float parsing.
* `QTimer` semantics: after `timer.stop()` the timeout signal is no longer
  delivered, so the tick event (`tick`) dispatches to the handler
  `update_timed_mode` only while the timer is active.
* `random.choice(seq)` is modelled by `choice seq k` where `k` is the random
  draw; it is `none` exactly when `seq` is empty (Python raises `IndexError`).
* Fallible handlers return `Option GuiState`; `none` models an uncaught
  Python exception (empty bank on `random.choice`, or the `ZeroDivisionError`
  raised by the progress computation when the target sentence is empty).
* The nested `textChanged` signal fired by programmatic `clear()` calls in
  `new_round`/`switch_mode` is not modelled: with the non-blank repository
  sentence bank it only rewrites display labels that are overwritten
  immediately afterwards.  The explicit `disconnect`/`connect` bracketing
  around the truncation `setPlainText` in `on_text_changed` means truncation
  itself never re-enters the handler.
-/

namespace TypingTest

/-- Longest common prefix length of user text and target, as computed by the
scan loop in `on_text_changed` (`typing_test_gui.py` lines 578-591 / 614-627):
it counts matches and stops at the first mismatching position. -/
def correctLength : List Char → List Char → Nat
  | u :: us, t :: ts => if u = t then correctLength us ts + 1 else 0
  | _, _ => 0

/-- The truncation policy of `on_text_changed`: on the first mismatch the
buffer is replaced by `target[:correct_length]`; if the buffer extends
beyond a fully matching target it is replaced by the whole target;
otherwise it is left alone. -/
def truncateInput (target user : List Char) : List Char :=
  let k := correctLength user target
  if k < min user.length target.length then target.take k
  else if target.length < user.length then target
  else user

/-- Model of the Python method str.strip: drop leading and trailing whitespace. -/
def strip (l : List Char) : List Char :=
  ((l.dropWhile Char.isWhitespace).reverse.dropWhile Char.isWhitespace).reverse

/-- One-decimal display formatting followed by `float(...)` parsing, as in
the setText call with the one-decimal format and the float parse of the label text:
the value is quantised to a multiple of 1/10. -/
def round1 (q : ℚ) : ℚ := (round (q * 10) : ℤ) / 10

/-- One entry of `self.stats_history`.  Sentence-mode records
(`complete_round`) carry round, time, wpm, cps and timestamp; timed-mode
records (`complete_timed_round`) additionally carry the cumulative
characters / words / sentences counters, so those fields are `Option`s,
mirroring the two dict shapes in the source. -/
structure RoundStats where
  round : Nat
  time : ℚ
  wpm : ℚ
  cps : ℚ
  timestamp : ℚ
  characters : Option Nat
  words : Option ℚ
  sentences : Option Nat
deriving DecidableEq

/-- The engine-relevant mutable state of `TypingTestGUI`.  Presentation-only
fields (style sheets, progress bar, timer label, geometry) are omitted;
`wpm_label` is kept because `on_text_changed` parses it back with
`float(self.wpm_label.text())` when recording a completed round. -/
structure GuiState where
  sentences : List (List Char)
  current_sentence : List Char
  start_time : Option ℚ
  round_number : Nat
  stats_history : List RoundStats
  timed_mode : Bool
  time_limit : Nat
  remaining_time : Nat
  timerActive : Bool
  inputEnabled : Bool
  inputBuffer : List Char
  wpm_label : ℚ
  timed_sentences_completed : Nat
  timed_chars_typed : Nat
  timed_words_typed : ℚ
deriving DecidableEq

/-- Model of `random.choice(l)` with the random draw `k` made explicit: `none` exactly
when the list is empty (Python raises `IndexError` there), otherwise the
element at index `k mod length`. -/
def choice (l : List (List Char)) (k : Nat) : Option (List Char) :=
  l.get? (k % l.length)

/-- Model of `new_round` (`typing_test_gui.py` lines 531-555): in sentence mode pick a
fresh target (failing when the bank is empty); clear and re-enable the input,
reset the start time, stop any running timer, reset the remaining time in
timed mode, and reset the displayed live stats. -/
def new_round (k : Nat) (s : GuiState) : Option GuiState :=
  if s.timed_mode then
    some { s with inputBuffer := [], inputEnabled := true, start_time := none,
                  timerActive := false, remaining_time := s.time_limit,
                  wpm_label := 0 }
  else
    match choice s.sentences k with
    | none => none
    | some sent =>
      some { s with current_sentence := sent, inputBuffer := [],
                    inputEnabled := true, start_time := none,
                    timerActive := false, wpm_label := 0 }

/-- Model of `load_new_sentence` (lines 765-770): pick a fresh target and clear the
input buffer; fails when the bank is empty. -/
def load_new_sentence (k : Nat) (s : GuiState) : Option GuiState :=
  match choice s.sentences k with
  | none => none
  | some sent => some { s with current_sentence := sent, inputBuffer := [] }

/-- Constructing `TypingTestGUI` (lines 20-51): default fields, then
`new_round()` runs in sentence mode, so construction fails exactly when the
configured sentence list cannot supply a target. -/
def initState (bank : List (List Char)) : GuiState :=
  { sentences := bank, current_sentence := [], start_time := none,
    round_number := 1, stats_history := [], timed_mode := false,
    time_limit := 60, remaining_time := 60, timerActive := false,
    inputEnabled := true, inputBuffer := [], wpm_label := 0,
    timed_sentences_completed := 0, timed_chars_typed := 0,
    timed_words_typed := 0 }

/-- Engine construction: `__init__` ends by calling `new_round()`. -/
def construct (bank : List (List Char)) (k : Nat) : Option GuiState :=
  new_round k (initState bank)

/-- Model of `complete_round` (lines 651-683) up to the modal result dialog: disable
the input, compute the chars-per-second of this round from the (already
truncated) buffer, append the round record, and advance the round index.
The trailing `new_round()` call runs only after the user dismisses the
modal `QMessageBox`, i.e. it is the Completed-to-Armed transition and is
modelled by a separate `new_round` event. -/
def complete_round (now elapsed wpmv : ℚ) (s : GuiState) : GuiState :=
  let cps : ℚ := if 0 < elapsed then (s.inputBuffer.length : ℚ) / elapsed else 0
  { s with inputEnabled := false,
           stats_history := s.stats_history ++
             [⟨s.round_number, elapsed, wpmv, cps, now, none, none, none⟩],
           round_number := s.round_number + 1 }

/-- Model of `on_text_changed` (lines 571-649), the input-change event with the new
buffer contents `txt`, the wall clock `now` and the random draw `k` used if
a fresh sentence must be loaded.  The timed branch is guarded (stale events
are dropped while the timer is stopped or the input disabled); the sentence
branch is not.  `none` models the `ZeroDivisionError` of the progress
computation when the current target is empty. -/
def on_text_changed (now : ℚ) (k : Nat) (txt : List Char) (s : GuiState) :
    Option GuiState :=
  if s.timed_mode then
    if s.timerActive = false ∨ s.inputEnabled = false then some s
    else
      let target := s.current_sentence
      let user := truncateInput target txt
      if target.length = 0 then none
      else
        let s1 := { s with inputBuffer := user }
        if strip user = strip target then
          load_new_sentence k
            { s1 with
              timed_sentences_completed := s1.timed_sentences_completed + 1,
              timed_chars_typed := s1.timed_chars_typed + user.length,
              timed_words_typed := s1.timed_words_typed + (user.length : ℚ) / 5 }
        else some s1
  else
    let stime := s.start_time.getD now
    let target := s.current_sentence
    let user := truncateInput target txt
    if target.length = 0 then none
    else
      let elapsed := now - stime
      let lbl := if 0 < elapsed
        then round1 (((user.length : ℚ) / 5) / (elapsed / 60))
        else s.wpm_label
      let s1 := { s with start_time := some stime, inputBuffer := user,
                         wpm_label := lbl }
      if strip user = strip target then
        some (complete_round now elapsed lbl s1)
      else some s1

/-- The timed branch of `switch_mode` (lines 721-731 and the shared tail
740-742): set timed mode, reset the remaining time to the configured limit,
stop the timer, clear the buffer and drop the start time.  Shared with
`complete_timed_round`, whose last step is `switch_mode(True)`. -/
def switch_to_timed (s : GuiState) : GuiState :=
  { s with timed_mode := true, remaining_time := s.time_limit,
           timerActive := false, inputBuffer := [], start_time := none }

/-- Model of `switch_mode` (lines 716-745).  The handler runs unconditionally: there
is no guard rejecting a switch during an active run.  Switching to sentence
mode runs `new_round()` (which can fail on an empty bank), then the shared
tail stops the timer, clears the buffer, drops the start time and re-enables
the input. -/
def switch_mode (timed : Bool) (k : Nat) (s : GuiState) : Option GuiState :=
  if timed then some (switch_to_timed { s with timed_mode := true })
  else
    match new_round k { s with timed_mode := false } with
    | none => none
    | some s2 =>
      some { s2 with timerActive := false, inputBuffer := [],
                     start_time := none, inputEnabled := true }

/-- Model of `start_timed_mode` (lines 747-763): enable and clear the input, capture
the start time, reset the remaining time and the cumulative counters, start
the 1-second timer, and load the first sentence. -/
def start_timed_mode (now : ℚ) (k : Nat) (s : GuiState) : Option GuiState :=
  load_new_sentence k
    { s with inputEnabled := true, inputBuffer := [], start_time := some now,
             remaining_time := s.time_limit, timerActive := true,
             timed_sentences_completed := 0, timed_chars_typed := 0,
             timed_words_typed := 0 }

/-- Model of `complete_timed_round` (lines 797-828): stop the timer, disable the
input, compute final wpm and chars/sec from the cumulative counters over the
fixed configured limit, append the timed round record, advance the round
index, then re-arm via `switch_mode(True)` (inlined as `switch_to_timed`,
which cannot fail). -/
def complete_timed_round (now : ℚ) (s : GuiState) : GuiState :=
  let s1 := { s with timerActive := false, inputEnabled := false }
  let elapsed : ℚ := (s1.time_limit : ℚ)
  let wpmv : ℚ := if 0 < elapsed then s1.timed_words_typed / (elapsed / 60) else 0
  let cps : ℚ := if 0 < elapsed then (s1.timed_chars_typed : ℚ) / elapsed else 0
  let s2 := { s1 with
    stats_history := s1.stats_history ++
      [⟨s1.round_number, elapsed, wpmv, cps, now, some s1.timed_chars_typed,
        some s1.timed_words_typed, some s1.timed_sentences_completed⟩],
    round_number := s1.round_number + 1 }
  switch_to_timed s2

/-- Model of `update_timed_mode` (lines 787-795), the body of the timeout handler:
only acts in timed mode with remaining time left; decrements the remaining
time and completes the run when it reaches zero. -/
def update_timed_mode (now : ℚ) (s : GuiState) : GuiState :=
  if s.timed_mode = true ∧ 0 < s.remaining_time then
    let s1 := { s with remaining_time := s.remaining_time - 1 }
    if s1.remaining_time = 0 then complete_timed_round now s1 else s1
  else s

/-- A tick event: `QTimer` delivers the timeout signal to
`update_timed_mode` only while the timer is running, so a tick arriving
after `timer.stop()` does nothing. -/
def tick (now : ℚ) (s : GuiState) : GuiState :=
  if s.timerActive then update_timed_mode now s else s

/-- The combo-box item texts checked by substring in `update_time_limit`. -/
def pat30 : List Char := ['3', '0', ' ', 's', 'e', 'c', 'o', 'n', 'd', 's']

/-- Combo text for the 60-second limit. -/
def pat60 : List Char := ['6', '0', ' ', 's', 'e', 'c', 'o', 'n', 'd', 's']

/-- Combo text for the 2-minute limit. -/
def pat120 : List Char := ['2', ' ', 'm', 'i', 'n', 'u', 't', 'e', 's']

/-- Combo text for the 5-minute limit. -/
def pat300 : List Char := ['5', ' ', 'm', 'i', 'n', 'u', 't', 'e', 's']

/-- Model of `update_time_limit` (lines 772-785): decode the selected combo text by
substring tests; an unrecognized text leaves the limit as it was.  In every
case the remaining time is then reset to the (possibly new) limit —
unconditionally, with no check of whether a run is active. -/
def update_time_limit (text : List Char) (s : GuiState) : GuiState :=
  let tl :=
    if pat30 <:+: text then 30
    else if pat60 <:+: text then 60
    else if pat120 <:+: text then 120
    else if pat300 <:+: text then 300
    else s.time_limit
  { s with time_limit := tl, remaining_time := tl }

/-- Model of `correct_chars` of `terminal_typing_test.py` (lines 167-173) and
`index.py` (lines 204-207): count every position, up to the shorter length,
at which the typed text agrees with the target (no break at a mismatch). -/
def correct_chars : List Char → List Char → Nat
  | u :: us, t :: ts => (if u = t then 1 else 0) + correct_chars us ts
  | _, _ => 0

/-- The accuracy formula of `terminal_typing_test.py` (lines 176-177), the
guarded variant: `(correct_chars / total_chars) * 100 if total_chars > 0
else 0`.  The variant in `index.py` is `accuracy_index` below. -/
def accuracy (user target : List Char) : ℚ :=
  if 0 < target.length then ((correct_chars user target : ℚ) / (target.length : ℚ)) * 100
  else 0

/-- The accuracy formula of `index.py` (line 209), which has no zero guard:
`(correct_chars / len(target_sentence)) * 100` raises `ZeroDivisionError`
on an empty target, modelled as `none`. -/
def accuracy_index (user target : List Char) : Option ℚ :=
  if target.length = 0 then none
  else some (((correct_chars user target : ℚ) / (target.length : ℚ)) * 100)

/-- The WPM formula of `terminal_typing_test.py` (lines 159-164) and
`index.py` (lines 196-201): `(len(user)/5) / (elapsed/60)` when elapsed time
is positive, `0` otherwise. -/
def wpm (charsTyped : Nat) (elapsed : ℚ) : ℚ :=
  if 0 < elapsed then ((charsTyped : ℚ) / 5) / (elapsed / 60) else 0

/-- The sample sentence used by concrete evaluations below. -/
def catL : List Char := ['c', 'a', 't']

/-- A mistyped line used by the accuracy evaluation below. -/
def cbtL : List Char := ['c', 'b', 't']

/-- A sentence-mode state three seconds into typing the target: two correct
characters entered, started at time 0. -/
def c2state : GuiState :=
  { sentences := [catL], current_sentence := catL, start_time := some 0,
    round_number := 1, stats_history := [], timed_mode := false,
    time_limit := 60, remaining_time := 60, timerActive := false,
    inputEnabled := true, inputBuffer := ['c', 'a'], wpm_label := 0,
    timed_sentences_completed := 0, timed_chars_typed := 0,
    timed_words_typed := 0 }

/-- A sentence-mode state whose round completes on the very event that sets
the start time, so elapsed time is 0 and the label was never refreshed. -/
def c10state : GuiState :=
  { sentences := [catL], current_sentence := catL, start_time := some 5,
    round_number := 1, stats_history := [], timed_mode := false,
    time_limit := 60, remaining_time := 60, timerActive := false,
    inputEnabled := true, inputBuffer := ['c', 'a'], wpm_label := 0,
    timed_sentences_completed := 0, timed_chars_typed := 0,
    timed_words_typed := 0 }

/-- Scenario C of the spec: a 30-second timed run one tick before expiry,
with 30 cumulative characters over 3 completed sentences (6 words). -/
def scenC : GuiState :=
  { sentences := [catL], current_sentence := catL, start_time := some 0,
    round_number := 1, stats_history := [], timed_mode := true,
    time_limit := 30, remaining_time := 1, timerActive := true,
    inputEnabled := true, inputBuffer := [], wpm_label := 0,
    timed_sentences_completed := 3, timed_chars_typed := 30,
    timed_words_typed := 6 }

/-- A timed run in full flight: timer active, 10 seconds remaining. -/
def c4state : GuiState :=
  { sentences := [catL], current_sentence := catL, start_time := some 0,
    round_number := 1, stats_history := [], timed_mode := true,
    time_limit := 60, remaining_time := 10, timerActive := true,
    inputEnabled := true, inputBuffer := ['c'], wpm_label := 0,
    timed_sentences_completed := 0, timed_chars_typed := 0,
    timed_words_typed := 0 }

/-- A timed run in full flight with 5 seconds left on a 60-second limit. -/
def c5state : GuiState :=
  { sentences := [catL], current_sentence := catL, start_time := some 0,
    round_number := 1, stats_history := [], timed_mode := true,
    time_limit := 60, remaining_time := 5, timerActive := true,
    inputEnabled := true, inputBuffer := [], wpm_label := 0,
    timed_sentences_completed := 2, timed_chars_typed := 20,
    timed_words_typed := 4 }

/-- A sentence-mode state whose input is disabled while the buffer still
holds the full target (exactly the situation right after a completion). -/
def c9state : GuiState :=
  { sentences := [catL], current_sentence := catL, start_time := some 0,
    round_number := 1, stats_history := [], timed_mode := false,
    time_limit := 60, remaining_time := 60, timerActive := false,
    inputEnabled := false, inputBuffer := catL, wpm_label := 0,
    timed_sentences_completed := 0, timed_chars_typed := 0,
    timed_words_typed := 0 }

/-- A torn-down timed-mode state: timer stopped, input still enabled. -/
def c9wstate : GuiState :=
  { sentences := [catL], current_sentence := catL, start_time := some 0,
    round_number := 1, stats_history := [], timed_mode := true,
    time_limit := 60, remaining_time := 60, timerActive := false,
    inputEnabled := true, inputBuffer := [], wpm_label := 0,
    timed_sentences_completed := 0, timed_chars_typed := 0,
    timed_words_typed := 0 }

/-- The scan never counts more positions than both strings have. -/
theorem correctLength_le_min (u t : List Char) :
    correctLength u t ≤ min u.length t.length := by
  induction u generalizing t with
  | nil => simp [correctLength]
  | cons c us ih =>
    cases t with
    | nil => simp [correctLength]
    | cons d ts =>
      by_cases h : c = d
      · have := ih ts
        simp only [correctLength, if_pos h, List.length_cons]
        omega
      · simp [correctLength, h]

/-- If the scan matched the whole user text, the user text is the
corresponding initial segment of the target. -/
theorem take_of_correctLength_eq (u : List Char) :
    ∀ t : List Char, correctLength u t = u.length → t.take u.length = u := by
  induction u with
  | nil => intro t _; simp
  | cons c us ih =>
    intro t h
    cases t with
    | nil => simp [correctLength] at h
    | cons d ts =>
      by_cases hcd : c = d
      · simp only [correctLength, if_pos hcd, List.length_cons, Nat.succ_inj] at h
        simp [List.take_succ_cons, hcd, ih ts h]
      · simp [correctLength, hcd] at h

/-- Characters of an initial segment agree with the original list. -/
theorem getD_of_take_eq (a : List Char) :
    ∀ (t : List Char) (i : Nat), t.take a.length = a → i < a.length →
      a.getD i ' ' = t.getD i ' ' := by
  induction a with
  | nil => intro t i _ hi; simp at hi
  | cons c as ih =>
    intro t i htake hi
    cases t with
    | nil => simp at htake
    | cons d ts =>
      simp only [List.length_cons, List.take_succ_cons, List.cons.injEq] at htake
      obtain ⟨hd, hts⟩ := htake
      cases i with
      | zero => simp [List.getD, hd]
      | succ j =>
        have hj : j < as.length := Nat.lt_of_succ_lt_succ hi
        simpa [List.getD] using ih ts j hts hj

/-- C1: Truncation invariant of the live-correction input handler.  For every
target sentence and every input buffer, the buffer left by the truncation
policy of `on_text_changed` never exceeds the length of the target, is an initial
segment of the target, and has no position `i` below its length at which it
differs from the target. -/
theorem truncation_invariant (target user : List Char) :
    (truncateInput target user).length ≤ target.length ∧
    target.take (truncateInput target user).length = truncateInput target user ∧
    ∀ i, i < (truncateInput target user).length →
      (truncateInput target user).getD i ' ' = target.getD i ' ' := by
  have key : (truncateInput target user).length ≤ target.length ∧
      target.take (truncateInput target user).length = truncateInput target user := by
    unfold truncateInput
    by_cases h1 : correctLength user target < min user.length target.length
    · simp only [if_pos h1]
      refine ⟨by simp, ?_⟩
      rw [List.length_take, List.take_eq_take]
      omega
    · simp only [if_neg h1]
      by_cases h2 : target.length < user.length
      · simp [if_pos h2]
      · simp only [if_neg h2]
        have hk : correctLength user target = user.length := by
          have := correctLength_le_min user target
          omega
        exact ⟨by omega, take_of_correctLength_eq user target hk⟩
  exact ⟨key.1, key.2, fun i hi => getD_of_take_eq _ target i key.2 hi⟩

/-- C6: An empty sentence bank is fatal.  `choice` (the model of
`random.choice`) yields nothing exactly on the empty bank, so engine
construction — whose final step is `new_round()` in sentence mode — fails,
and `new_round` can never arm a round from an empty bank; conversely, on a
non-empty bank `choice` always succeeds and returns an element of the bank. -/
theorem empty_bank_fatal (bank : List (List Char)) (k : Nat) (s : GuiState) :
    (choice bank k = none ↔ bank = []) ∧
    (bank = [] → construct bank k = none) ∧
    (s.sentences = [] → s.timed_mode = false → new_round k s = none) ∧
    (∀ t, choice bank k = some t → t ∈ bank) ∧
    (bank ≠ [] → ∃ t, choice bank k = some t) := by
  have hchoice : ∀ (l : List (List Char)) (j : Nat), l ≠ [] → ∃ t, choice l j = some t := by
    intro l j hl
    have hpos : 0 < l.length := List.length_pos.mpr hl
    have hlt : j % l.length < l.length := Nat.mod_lt _ hpos
    exact ⟨l.get ⟨j % l.length, hlt⟩, List.get?_eq_get hlt⟩
  refine ⟨?_, ?_, ?_, ?_, hchoice bank k⟩
  · constructor
    · intro h
      by_contra hne
      obtain ⟨t, ht⟩ := hchoice bank k hne
      rw [ht] at h
      exact Option.noConfusion h
    · intro h; subst h; rfl
  · intro h; subst h; rfl
  · intro hs hm
    unfold new_round
    rw [if_neg (by simp [hm]), choice, hs]
    rfl
  · intro t ht
    exact List.get?_mem ht

/-- C6 witness: the empty bank fails at construction and cannot arm a round,
while a one-sentence bank always yields a target. -/
theorem empty_bank_fatal_witness :
    construct [] 0 = none ∧ new_round 0 (initState []) = none ∧
    ∃ t, choice [catL] 0 = some t := by
  refine ⟨(empty_bank_fatal [] 0 (initState [])).2.1 rfl, ?_, ?_⟩
  · exact (empty_bank_fatal [] 0 (initState [])).2.2.1 rfl rfl
  · exact (empty_bank_fatal [catL] 0 (initState [])).2.2.2.2 (by decide)

/-- C7 counterexample: the accuracy computation of `index.py` (line 209),
one of the two implementations the claim covers, is NOT defined as 0 at an
empty target — it fails (`ZeroDivisionError`), so the does-not-fail
conjunct of the claim is false there. -/
theorem accuracy_index_fails_on_empty_target :
    accuracy_index cbtL [] = none ∧ accuracy_index cbtL [] ≠ some 0 := by
  decide

/-- C7 amended: both accuracy computations count the positions below the
shorter of the two lengths at which the typed text agrees with the target
(via `List.zip`, whose length is that minimum) and divide by the target
length scaled by 100; on an empty target the `terminal_typing_test.py`
variant is defined as 0 without failing, while the `index.py` variant has
no zero guard and fails. -/
theorem accuracy_formulas (u t : List Char) :
    correct_chars u t = (u.zip t).countP (fun p => p.1 == p.2) ∧
    (t ≠ [] → accuracy u t = ((correct_chars u t : ℚ) / (t.length : ℚ)) * 100 ∧
      accuracy_index u t =
        some (((correct_chars u t : ℚ) / (t.length : ℚ)) * 100)) ∧
    accuracy u [] = 0 ∧
    accuracy_index u [] = none := by
  refine ⟨?_, ?_, rfl, rfl⟩
  · induction u generalizing t with
    | nil => cases t <;> simp [correct_chars]
    | cons c us ih =>
      cases t with
      | nil => simp [correct_chars]
      | cons d ts =>
        by_cases h : c = d
        · simp [correct_chars, List.countP_cons, h, ih ts]
          omega
        · simp [correct_chars, List.countP_cons, h, ih ts]
  · intro ht
    constructor
    · unfold accuracy
      rw [if_pos (List.length_pos.mpr ht)]
    · unfold accuracy_index
      rw [if_neg (by simpa using ht)]

/-- C7 amended witness: a mistyped line against the three-letter target
evaluates to two correct characters out of three in both variants, i.e.
accuracy (2/3)*100; on the empty target the guarded variant returns 0. -/
theorem accuracy_formulas_witness :
    accuracy cbtL catL = (2 : ℚ) / 3 * 100 ∧
    accuracy_index cbtL catL = some ((2 : ℚ) / 3 * 100) ∧
    accuracy cbtL [] = 0 := by
  obtain ⟨h1, h2⟩ := (accuracy_formulas cbtL catL).2.1 (by decide)
  have hc : correct_chars cbtL catL = 2 := by decide
  refine ⟨?_, ?_, (accuracy_formulas cbtL []).2.2.1⟩
  · rw [h1, hc]
    norm_num [catL]
  · rw [h2, hc]
    norm_num [catL]

/-- C8: the WPM computation is `(chars/5)/(elapsed/60)` for positive elapsed
time and 0 otherwise; in particular it is 0 whenever no characters were
typed, and 0 at elapsed time 0. -/
theorem wpm_spec (c : Nat) (t : ℚ) :
    (0 < t → wpm c t = ((c : ℚ) / 5) / (t / 60)) ∧
    (t ≤ 0 → wpm c t = 0) ∧
    (0 < t → wpm 0 t = 0) ∧
    wpm c 0 = 0 := by
  refine ⟨fun h => ?_, fun h => ?_, fun h => ?_, ?_⟩
  · unfold wpm; rw [if_pos h]
  · unfold wpm; rw [if_neg (not_lt.mpr h)]
  · unfold wpm; rw [if_pos h]; norm_num
  · unfold wpm; rw [if_neg (by norm_num)]

/-- C8 witness: 10 characters in 30 seconds is 4 WPM; zero elapsed time and
zero characters both give 0. -/
theorem wpm_spec_witness :
    wpm 10 30 = 4 ∧ wpm 7 0 = 0 ∧ wpm 0 30 = 0 := by
  refine ⟨?_, (wpm_spec 7 0).2.2.2, (wpm_spec 0 30).2.2.1 (by norm_num)⟩
  rw [(wpm_spec 10 30).1 (by norm_num)]
  norm_num

/-- Unfolding of the sentence-mode branch of `on_text_changed`: with the mode
flag off and a non-empty target, the handler truncates, refreshes the wpm
label when elapsed time is positive, and either completes the round (on
stripped equality) or just republishes the state. -/
theorem on_text_changed_sentence_eq (s : GuiState) (now : ℚ) (k : Nat)
    (txt : List Char) (hm : s.timed_mode = false) (ht : s.current_sentence ≠ []) :
    on_text_changed now k txt s =
      (if strip (truncateInput s.current_sentence txt) = strip s.current_sentence
       then some (complete_round now (now - s.start_time.getD now)
         (if 0 < now - s.start_time.getD now
          then round1 ((((truncateInput s.current_sentence txt).length : ℚ) / 5) /
            ((now - s.start_time.getD now) / 60))
          else s.wpm_label)
         { s with
           start_time := some (s.start_time.getD now),
           inputBuffer := truncateInput s.current_sentence txt,
           wpm_label :=
             (if 0 < now - s.start_time.getD now
              then round1 ((((truncateInput s.current_sentence txt).length : ℚ) / 5) /
                ((now - s.start_time.getD now) / 60))
              else s.wpm_label) })
       else some { s with
           start_time := some (s.start_time.getD now),
           inputBuffer := truncateInput s.current_sentence txt,
           wpm_label :=
             (if 0 < now - s.start_time.getD now
              then round1 ((((truncateInput s.current_sentence txt).length : ℚ) / 5) /
                ((now - s.start_time.getD now) / 60))
              else s.wpm_label) }) := by
  unfold on_text_changed
  rw [if_neg (by simp [hm]), if_neg (by simpa using ht)]

/-- C2: Sentence-mode completion.  The handler completes the round exactly
when the truncated buffer, stripped of surrounding whitespace, equals the
stripped target; at that instant the input is disabled, a record carrying
the round index, elapsed time, the displayed wpm, chars-per-second and the
timestamp is appended to the history, and the round index advances by one.
Otherwise input stays as it was, and neither history nor round index move. -/
theorem sentence_completion (s : GuiState) (now : ℚ) (k : Nat) (txt : List Char)
    (hm : s.timed_mode = false) (ht : s.current_sentence ≠ []) :
    ∃ s', on_text_changed now k txt s = some s' ∧
      (strip (truncateInput s.current_sentence txt) = strip s.current_sentence →
        s'.inputEnabled = false ∧
        s'.round_number = s.round_number + 1 ∧
        s'.stats_history = s.stats_history ++
          [⟨s.round_number, now - s.start_time.getD now,
            (if 0 < now - s.start_time.getD now
             then round1 ((((truncateInput s.current_sentence txt).length : ℚ) / 5) /
               ((now - s.start_time.getD now) / 60))
             else s.wpm_label),
            (if 0 < now - s.start_time.getD now
             then ((truncateInput s.current_sentence txt).length : ℚ) /
               (now - s.start_time.getD now)
             else 0),
            now, none, none, none⟩]) ∧
      (strip (truncateInput s.current_sentence txt) ≠ strip s.current_sentence →
        s'.inputEnabled = s.inputEnabled ∧
        s'.round_number = s.round_number ∧
        s'.stats_history = s.stats_history) := by
  rw [on_text_changed_sentence_eq s now k txt hm ht]
  by_cases hdone : strip (truncateInput s.current_sentence txt) = strip s.current_sentence
  · rw [if_pos hdone]
    exact ⟨_, rfl, fun _ => ⟨rfl, rfl, rfl⟩, fun h => absurd hdone h⟩
  · rw [if_neg hdone]
    exact ⟨_, rfl, fun h => absurd h hdone, fun _ => ⟨rfl, rfl, rfl⟩⟩

/-- The one-decimal quantisation is exact on integer values. -/
theorem round1_intCast (n : ℤ) : round1 ((n : ℚ)) = (n : ℚ) := by
  rw [round1, show ((n : ℚ) * 10) = ((n * 10 : ℤ) : ℚ) by push_cast; ring, round_intCast]
  push_cast
  ring

/-- C2 witness: completing the three-letter target after 3 seconds freezes
input, appends the record for round 1 (time 3 s, 12 wpm, 1 char/s) and
advances the round index to 2. -/
theorem sentence_completion_witness :
    ∃ s', on_text_changed 3 0 catL c2state = some s' ∧
      s'.inputEnabled = false ∧ s'.round_number = 2 ∧
      s'.stats_history = [⟨1, 3, 12, 1, 3, none, none, none⟩] := by
  obtain ⟨s', hs, hdone, _⟩ := sentence_completion c2state 3 0 catL rfl (by decide)
  have hkey := hdone (by decide)
  refine ⟨s', hs, hkey.1, hkey.2.1, ?_⟩
  rw [hkey.2.2]
  have h30 : (3 : ℚ) - c2state.start_time.getD 3 = 3 := by norm_num [c2state]
  have hlen3 : (truncateInput catL catL).length = 3 := by decide
  simp only [c2state, List.nil_append, h30]
  norm_num
  have harg : ((truncateInput catL catL).length : ℚ) / 5 / ((1 : ℚ) / 20) = ((12 : ℤ) : ℚ) := by
    rw [hlen3]
    push_cast
    norm_num
  constructor
  · rw [harg, round1_intCast]
    norm_num
  · rw [hlen3]
    norm_num

/-- C10: in GUI sentence mode the wpm stored in the record of a completed round
is the live-display value — the exact wpm quantised to one decimal by the
label round-trip (setText with one decimal, then float of the text) when elapsed
time was positive, and otherwise the stale label contents; in particular,
when the round completes with no positive-elapsed refresh having happened
and the label still showing its reset value 0, the recorded wpm is exactly
0. The wpm of the record always equals the label value left on screen. -/
theorem recorded_wpm_from_label (s : GuiState) (now : ℚ) (k : Nat) (txt : List Char)
    (hm : s.timed_mode = false) (ht : s.current_sentence ≠ [])
    (hdone : strip (truncateInput s.current_sentence txt) = strip s.current_sentence) :
    ∃ s' r, on_text_changed now k txt s = some s' ∧
      s'.stats_history = s.stats_history ++ [r] ∧
      r.wpm = s'.wpm_label ∧
      r.wpm = (if 0 < now - s.start_time.getD now
               then round1 ((((truncateInput s.current_sentence txt).length : ℚ) / 5) /
                 ((now - s.start_time.getD now) / 60))
               else s.wpm_label) ∧
      (now - s.start_time.getD now ≤ 0 → s.wpm_label = 0 → r.wpm = 0) := by
  rw [on_text_changed_sentence_eq s now k txt hm ht, if_pos hdone]
  refine ⟨_, _, rfl, rfl, rfl, rfl, fun hle h0 => ?_⟩
  rw [if_neg (not_lt.mpr hle), h0]

/-- C10 witness: a completion at elapsed time 0 records wpm exactly 0, and
the recorded wpm is whatever the label shows. -/
theorem recorded_wpm_witness :
    ∃ s' r, on_text_changed 5 0 catL c10state = some s' ∧
      s'.stats_history = [r] ∧ r.wpm = 0 ∧ r.wpm = s'.wpm_label := by
  obtain ⟨s', r, h1, h2, h3, h4, h5⟩ :=
    recorded_wpm_from_label c10state 5 0 catL rfl (by decide) (by decide)
  have hz : (5 : ℚ) - c10state.start_time.getD 5 ≤ 0 := by norm_num [c10state]
  exact ⟨s', r, h1, by simpa [c10state] using h2, h5 hz rfl, h3⟩

/-- C3: timed-mode tick and completion.  While a timed run is active (timer
running, timed mode, remaining time positive) each tick decrements the
remaining time by exactly 1 and changes nothing else; the tick that brings
it to 0 completes the run: the timer is stopped, input disabled, final wpm
and chars/sec are computed from the cumulative counters over the fixed
configured limit, the record carries the cumulative characters, words and
completed-sentence count, the round index advances, and the run is re-armed
with the remaining time reset to the configured limit. -/
theorem timed_tick (s : GuiState) (now : ℚ)
    (ha : s.timerActive = true) (hm : s.timed_mode = true) (hr : 0 < s.remaining_time) :
    (1 < s.remaining_time →
      tick now s = { s with remaining_time := s.remaining_time - 1 }) ∧
    (s.remaining_time = 1 →
      ∃ s', tick now s = s' ∧
        s'.timerActive = false ∧ s'.inputEnabled = false ∧
        s'.round_number = s.round_number + 1 ∧
        s'.remaining_time = s.time_limit ∧
        s'.stats_history = s.stats_history ++
          [⟨s.round_number, (s.time_limit : ℚ),
            (if 0 < (s.time_limit : ℚ) then s.timed_words_typed / ((s.time_limit : ℚ) / 60) else 0),
            (if 0 < (s.time_limit : ℚ) then (s.timed_chars_typed : ℚ) / (s.time_limit : ℚ) else 0),
            now, some s.timed_chars_typed, some s.timed_words_typed,
            some s.timed_sentences_completed⟩]) := by
  constructor
  · intro h1
    simp only [tick, ha, if_true, update_timed_mode]
    rw [if_pos ⟨hm, hr⟩, if_neg (show ¬(s.remaining_time - 1 = 0) by omega)]
  · intro h1
    simp only [tick, ha, if_true, update_timed_mode]
    rw [if_pos ⟨hm, hr⟩, if_pos (show s.remaining_time - 1 = 0 by omega)]
    exact ⟨_, rfl, rfl, rfl, rfl, rfl, rfl⟩

/-- C3 witness (Scenario C of the spec): the 30th tick completes the run with
wpm `(30/5)/(30/60) = 12`, 1 char/s, 30 characters, 6 words, 3 sentences. -/
theorem timed_tick_witness :
    ∃ s', tick 100 scenC = s' ∧ s'.timerActive = false ∧ s'.inputEnabled = false ∧
      s'.round_number = 2 ∧ s'.remaining_time = 30 ∧
      s'.stats_history = [⟨1, 30, 12, 1, 100, some 30, some 6, some 3⟩] := by
  obtain ⟨s', h1, h2, h3, h4, h5, h6⟩ := (timed_tick scenC 100 rfl rfl (by decide)).2 rfl
  refine ⟨s', h1, h2, h3, by simpa [scenC] using h4, by simpa [scenC] using h5, ?_⟩
  rw [h6]
  norm_num [scenC]

/-- C4 counterexample: a mode-switch request delivered while a timed run is
Active (timer running, time remaining) is not rejected: `switch_mode` has no
guard, so the request flips the mode flag and stops the running timer,
contradicting the claim that the state remains Active and unchanged. -/
theorem mode_switch_during_active_not_noop :
    c4state.timed_mode = true ∧ c4state.timerActive = true ∧ 0 < c4state.remaining_time ∧
    (switch_mode false 0 c4state).map (fun s => s.timed_mode) = some false ∧
    (switch_mode false 0 c4state).map (fun s => s.timerActive) = some false := by
  decide

/-- C4 amended: a mode-switch request always takes effect, whatever the
session state: whenever the handler returns, the mode equals the requested
one, any pending tick source is stopped, the input buffer is cleared and the
start time dropped — an in-progress Active run is torn down, not preserved. -/
theorem mode_switch_takes_effect (s : GuiState) (timed : Bool) (k : Nat) (s' : GuiState)
    (h : switch_mode timed k s = some s') :
    s'.timed_mode = timed ∧ s'.timerActive = false ∧ s'.inputBuffer = [] ∧
    s'.start_time = none := by
  cases timed with
  | true =>
    simp only [switch_mode, if_true, Option.some.injEq] at h
    subst h
    exact ⟨rfl, rfl, rfl, rfl⟩
  | false =>
    simp only [switch_mode, Bool.false_eq_true, if_false] at h
    cases hnr : new_round k { s with timed_mode := false } with
    | none => rw [hnr] at h; cases h
    | some s2 =>
      rw [hnr] at h
      simp only [Option.some.injEq] at h
      subst h
      refine ⟨?_, rfl, rfl, rfl⟩
      unfold new_round at hnr
      rw [if_neg (by simp)] at hnr
      cases hc : choice ({ s with timed_mode := false } : GuiState).sentences k with
      | none => rw [hc] at hnr; cases hnr
      | some sent =>
        rw [hc] at hnr
        simp only [Option.some.injEq] at hnr
        subst hnr
        rfl

/-- C4 amended witness: switching the active timed run to timed mode again
lands in timed mode with the timer stopped and the buffer cleared. -/
theorem mode_switch_takes_effect_witness :
    (switch_to_timed { c4state with timed_mode := true }).timed_mode = true ∧
    (switch_to_timed { c4state with timed_mode := true }).timerActive = false ∧
    (switch_to_timed { c4state with timed_mode := true }).inputBuffer = [] ∧
    (switch_to_timed { c4state with timed_mode := true }).start_time = none :=
  mode_switch_takes_effect c4state true 0 _ rfl

/-- C5 counterexample: selecting the 30-second item while a timed run is Active
with 5 seconds remaining resets the remaining time to 30 —
`update_time_limit` unconditionally assigns `remaining_time = time_limit`,
so the change does affect the in-progress run, contrary to the claim. -/
theorem time_limit_change_hits_active_run :
    c5state.timed_mode = true ∧ c5state.timerActive = true ∧
    c5state.remaining_time = 5 ∧
    (update_time_limit pat30 c5state).remaining_time = 30 := by
  decide

/-- C5 amended: a time-limit change always updates the configured limit for
the four recognized selections and always resets the remaining time to the
(possibly new) limit, whether the session is Armed or Active; the cumulative
run counters, the history and the round index are untouched. -/
theorem update_time_limit_unconditional (s : GuiState) (text : List Char) :
    (update_time_limit text s).remaining_time = (update_time_limit text s).time_limit ∧
    (update_time_limit text s).timed_chars_typed = s.timed_chars_typed ∧
    (update_time_limit text s).timed_words_typed = s.timed_words_typed ∧
    (update_time_limit text s).timed_sentences_completed = s.timed_sentences_completed ∧
    (update_time_limit text s).stats_history = s.stats_history ∧
    (update_time_limit text s).round_number = s.round_number ∧
    update_time_limit pat30 s = { s with time_limit := 30, remaining_time := 30 } ∧
    update_time_limit pat60 s = { s with time_limit := 60, remaining_time := 60 } ∧
    update_time_limit pat120 s = { s with time_limit := 120, remaining_time := 120 } ∧
    update_time_limit pat300 s = { s with time_limit := 300, remaining_time := 300 } := by
  refine ⟨rfl, rfl, rfl, rfl, rfl, rfl, ?_, ?_, ?_, ?_⟩
  · unfold update_time_limit
    rw [if_pos (show pat30 <:+: pat30 by decide)]
  · unfold update_time_limit
    rw [if_neg (show ¬(pat30 <:+: pat60) by decide),
      if_pos (show pat60 <:+: pat60 by decide)]
  · unfold update_time_limit
    rw [if_neg (show ¬(pat30 <:+: pat120) by decide),
      if_neg (show ¬(pat60 <:+: pat120) by decide),
      if_pos (show pat120 <:+: pat120 by decide)]
  · unfold update_time_limit
    rw [if_neg (show ¬(pat30 <:+: pat300) by decide),
      if_neg (show ¬(pat60 <:+: pat300) by decide),
      if_neg (show ¬(pat120 <:+: pat300) by decide),
      if_pos (show pat300 <:+: pat300 by decide)]

/-- C9 amended, the part that holds: a tick is a no-op once the tick source
is stopped (no delivery) or once the remaining time is 0 (guard in
`update_timed_mode`), and in TIMED mode an input-change while the timer is
stopped or the input disabled is dropped by the guard of the handler. -/
theorem stale_events_noop (s : GuiState) (now : ℚ) (k : Nat) (txt : List Char) :
    (s.timerActive = false → tick now s = s) ∧
    (s.remaining_time = 0 → tick now s = s) ∧
    (s.timed_mode = true → s.timerActive = false ∨ s.inputEnabled = false →
      on_text_changed now k txt s = some s) := by
  refine ⟨fun h => ?_, fun h => ?_, fun hm hg => ?_⟩
  · simp [tick, h]
  · unfold tick
    by_cases ha : s.timerActive
    · simp [ha, update_timed_mode, h]
    · simp [ha]
  · unfold on_text_changed
    rw [if_pos hm, if_pos hg]

/-- C9 counterexample: in SENTENCE mode the input-change handler has no
staleness guard — an input-change delivered while the input is disabled is
processed in full and here re-completes the round, appending a record and
advancing the round index, so the engine state is not left unchanged. -/
theorem stale_input_processed_in_sentence_mode :
    c9state.inputEnabled = false ∧ c9state.timed_mode = false ∧
    c9state.round_number = 1 ∧ c9state.stats_history.length = 0 ∧
    (on_text_changed 3 0 catL c9state).map (fun s => s.round_number) = some 2 ∧
    (on_text_changed 3 0 catL c9state).map (fun s => s.stats_history.length) = some 1 := by
  decide

/-- C9 amended witness: with the timer stopped, both a tick and a timed-mode
input-change leave the state exactly as it was. -/
theorem stale_events_noop_witness :
    tick 5 c9wstate = c9wstate ∧ on_text_changed 5 0 catL c9wstate = some c9wstate := by
  have h := stale_events_noop c9wstate 5 0 catL
  exact ⟨h.1 rfl, h.2.2 rfl (Or.inl rfl)⟩

/-- C1 witness: the truncated mistyped buffer cax against the target cat is
the two-character correct initial segment ca, within the target length and
agreeing with the target position by position. -/
theorem truncation_invariant_witness :
    (truncateInput catL ['c', 'a', 'x']).length ≤ catL.length ∧
    catL.take (truncateInput catL ['c', 'a', 'x']).length =
      truncateInput catL ['c', 'a', 'x'] ∧
    (truncateInput catL ['c', 'a', 'x']).getD 0 ' ' = catL.getD 0 ' ' := by
  refine ⟨(truncation_invariant catL ['c', 'a', 'x']).1,
    (truncation_invariant catL ['c', 'a', 'x']).2.1,
    (truncation_invariant catL ['c', 'a', 'x']).2.2 0 (by decide)⟩
